import Mathlib

/-!
Verification development for the sdd repository (spec-driven development helper
scripts).  The five Python scripts are shallowly embedded over a line-based
document model: a document is a `List String` of its lines, each line
implicitly terminated by a newline.  Pure string manipulation is modelled on
`List Char` so that every definition is executable and decidable.
-/

set_option maxRecDepth 10000

/-- Python whitespace characters as used by `str.strip()` and `\s` in the
regular expressions of the scripts (ASCII subset). -/
def pyIsSpace (c : Char) : Bool :=
  c == ' ' || c == '\t' || c == '\n' || c == '\r' || c == '\x0b' || c == '\x0c'

/-- Left strip, `str.lstrip()`. -/
def stripLCl (l : List Char) : List Char := l.dropWhile pyIsSpace

/-- Right strip, `str.rstrip()`. -/
def stripRCl (l : List Char) : List Char := (l.reverse.dropWhile pyIsSpace).reverse

/-- Both-sides strip, `str.strip()`. -/
def stripCl (l : List Char) : List Char := stripRCl (stripLCl l)

/-- `str.strip()` on a `String`. -/
def pyStrip (s : String) : String := String.mk (stripCl s.data)

/-- Boolean list-level check that `p` is an initial segment of `s`. -/
def startsWithCl : List Char → List Char → Bool
  | [], _ => true
  | _ :: _, [] => false
  | p :: ps, c :: cs => p == c && startsWithCl ps cs

/-- Boolean check that `p` is a final segment of `s`. -/
def endsWithCl (p s : List Char) : Bool := startsWithCl p.reverse s.reverse

/-- Boolean substring search: does `pat` occur inside `hay`? -/
def containsSub (pat hay : List Char) : Bool :=
  match hay with
  | [] => startsWithCl pat []
  | _ :: cs => startsWithCl pat hay || containsSub pat cs

/-- Lexicographic comparison of character lists by code point, as Python
compares `str` values. -/
def clLe : List Char → List Char → Bool
  | [], _ => true
  | _ :: _, [] => false
  | a :: as, b :: bs => if a == b then clLe as bs else decide (a < b)

/-- `str <= str` on Strings (code-point lexicographic). -/
def strLeB (s t : String) : Bool := clLe s.data t.data

/-- Split a line at its first colon, Python `line.split(':', 1)` when a colon
is present (`none` when the line has no colon). -/
def splitFirstColon : List Char → Option (List Char × List Char)
  | [] => none
  | c :: cs =>
    if c == ':' then some ([], cs)
    else
      match splitFirstColon cs with
      | none => none
      | some (k, v) => some (c :: k, v)

/-- A line consisting solely of whitespace (or empty). -/
def wsOnly (l : String) : Bool := l.data.all pyIsSpace

/-- Join lines with newline separators, the inverse of splitting a document
into lines (`'\n'.join(lines)`). -/
def joinLines : List String → String
  | [] => ""
  | [l] => l
  | l :: ls => l ++ "\n" ++ joinLines ls

/-- Header mappings: ordered association lists of string keys and values,
modelling Python dicts of strings. -/
abbrev Dict := List (String × String)

/-- Dict lookup, Python `d.get(k)` (`none` when absent). -/
def dictGet : Dict → String → Option String
  | [], _ => none
  | (k1, v) :: d, k => if k1 = k then some v else dictGet d k

/-- Dict lookup with default, Python `d.get(k, dflt)`. -/
def dictGetD (d : Dict) (k dflt : String) : String := (dictGet d k).getD dflt

/-- Dict update `d[k] = v`: overwrite in place when the key exists (keeping its
insertion position, as a Python dict does), else append. -/
def dictInsert : Dict → String → String → Dict
  | [], k, v => [(k, v)]
  | (k1, v1) :: d, k, v =>
    if k1 = k then (k1, v) :: d else (k1, v1) :: dictInsert d k v

/-- The key/value contributed by one header line: lines without a colon are
ignored, otherwise the line is split at the first colon and both halves are
stripped. -/
def lineEntry (l : String) : Option (String × String) :=
  match splitFirstColon l.data with
  | none => none
  | some (k, v) => some (String.mk (stripCl k), String.mk (stripCl v))

/-- One step of header-block accumulation. -/
def fmStep (d : Dict) (l : String) : Dict :=
  match lineEntry l with
  | none => d
  | some (k, v) => dictInsert d k v

/-- Build the header mapping from the block lines, later occurrences of a key
overwriting earlier ones. -/
def fmOfLines (ls : List String) : Dict := ls.foldl fmStep []

/-- A line that is exactly the delimiter `---` followed by only whitespace;
this is what `^---\s*\n` accepts as the opening line. -/
def delimLine (l : String) : Bool :=
  startsWithCl ("---".data) l.data && (l.data.drop 3).all pyIsSpace

/-- A line that merely starts with `---`; this is what the unanchored closing
`\n---` of the parsing regex accepts. -/
def delimStart (l : String) : Bool := startsWithCl ("---".data) l.data

/-- The header block matched by `re.match(r'^---\s*\n(.*?)\n---', content)`,
as block lines: the first line must be the delimiter, and the closing
delimiter is the first later line starting with `---`; the lazy group always
contains at least the line directly after the opener.  `none` when the
pattern does not match. -/
def fmCore : List String → Option (List String)
  | [] => none
  | l0 :: rest =>
    if delimLine l0 then
      match rest with
      | [] => none
      | r0 :: rs =>
        match rs.findIdx? delimStart with
        | some j => some (r0 :: rs.take j)
        | none => none
    else none

/-- Stem of a path, Python `Path(p).stem`: the final path component without
its last dot-suffix (a leading dot alone does not start a suffix). -/
def pyStem (p : String) : String :=
  let name := (p.data.reverse.takeWhile (fun c => !(c == '/'))).reverse
  let rev := name.reverse
  let beforeDot := rev.takeWhile (fun c => !(c == '.'))
  if beforeDot.length == rev.length then String.mk name
  else
    let rest := (rev.dropWhile (fun c => !(c == '.'))).drop 1
    if rest.isEmpty then String.mk name else String.mk rest.reverse

/-- Structured validation errors; the Python script renders each of these as
one formatted message string appended to its error list, so the list of
constructors below is in bijection with the list of produced messages. -/
inductive SpecError where
  | fileNotFound (path : String)
  | missingFrontmatter (path : String)
  | missingField (field : String) (path : String)
  | invalidStatus (status : String) (path : String)
  | placeholderIssue (path : String)
deriving DecidableEq, Repr

namespace ValidateSpec

/-- Required header fields of `validate-spec.py`. -/
def REQUIRED_FIELDS : List String := ["title", "status", "domain", "issue", "created", "updated"]

/-- Valid statuses of `validate-spec.py`. -/
def VALID_STATUSES : List String := ["active", "deprecated", "superseded", "archived"]

/-- Known placeholder values for the `issue` field. -/
def PLACEHOLDER_ISSUES : List String :=
  ["PROJ-XXX", "[PROJ-XXX]", "TODO", "", "\x7b\x7bISSUE\x7d\x7d"]

/-- The validator version of `parse_frontmatter`: it returns `None` (here
`none`) when the header block is absent, unlike the generator scripts. -/
def parse_frontmatter (doc : List String) : Option Dict := (fmCore doc).map fmOfLines

/-- Python `field not in fm or not fm[field]`: key absent or empty value. -/
def fieldAbsentOrEmpty (fm : Dict) (f : String) : Bool := (dictGet fm f).getD "" == ""

/-- Errors for missing or empty required fields, in field order. -/
def missingFieldErrors (path : String) (fm : Dict) : List SpecError :=
  (REQUIRED_FIELDS.filter (fun f => fieldAbsentOrEmpty fm f)).map
    (fun f => SpecError.missingField f path)

/-- Error for a present but invalid `status` value. -/
def statusErrors (path : String) (fm : Dict) : List SpecError :=
  match dictGet fm "status" with
  | some s => if VALID_STATUSES.contains s then [] else [SpecError.invalidStatus s path]
  | none => []

/-- Error for a present placeholder `issue` value. -/
def issueErrors (path : String) (fm : Dict) : List SpecError :=
  match dictGet fm "issue" with
  | some i => if PLACEHOLDER_ISSUES.contains i then [SpecError.placeholderIssue path] else []
  | none => []

/-- The accumulated per-field checks of `validate_spec` once a header block is
present: all applicable errors are concatenated. -/
def validate_fields (path : String) (fm : Dict) : List SpecError :=
  missingFieldErrors path fm ++ statusErrors path fm ++ issueErrors path fm

/-- `validate_spec`: `none` for the file models a nonexistent path; otherwise
the file content is given as its list of lines. -/
def validate_spec (path : String) (file : Option (List String)) : List SpecError :=
  match file with
  | none => [SpecError.fileNotFound path]
  | some content =>
    match parse_frontmatter content with
    | none => [SpecError.missingFrontmatter path]
    | some fm => validate_fields path fm

end ValidateSpec

namespace GenerateIndex

/-- The generator version of `parse_frontmatter`: an empty mapping when the
header block is absent. -/
def parse_frontmatter (doc : List String) : Dict :=
  match fmCore doc with
  | none => []
  | some block => fmOfLines block

/-- Status bucket of a document in `generate-index.py`:
`fm.get('status', 'active')`, so a missing status defaults to active. -/
def statusOf (doc : List String) : String := dictGetD (parse_frontmatter doc) "status" "active"

/-- One row record of the index, with the defaults of `generate-index.py`. -/
structure IndexEntry where
  status : String
  title : String
  ctype : String
  path : String
  domain : String
  issue : String
  created : String
deriving DecidableEq, Repr

/-- Build the entry of one spec file (given as relative path and lines). -/
def indexEntryOf (p : String × List String) : IndexEntry :=
  let fm := parse_frontmatter p.2
  ⟨statusOf p.2,
   (dictGet fm "title").getD (pyStem p.1),
   dictGetD fm "type" "feature",
   p.1,
   dictGetD fm "domain" "Unknown",
   dictGetD fm "issue" "",
   dictGetD fm "created" ""⟩

/-- Markdown issue link, empty for an empty issue. -/
def issueLink (issue : String) : String :=
  if issue = "" then "" else "[" ++ issue ++ "](#)"

/-- One markdown table row of the index. -/
def indexRow (e : IndexEntry) : String :=
  "| " ++ e.title ++ " | " ++ e.ctype ++ " | [" ++ e.path ++ "](" ++ e.path ++ ") | "
    ++ e.domain ++ " | " ++ issueLink e.issue ++ " | " ++ e.created ++ " |"

/-- Stable insertion of an entry into a list sorted by the `created` string,
placing it before the first entry it is less-or-equal to. -/
def insertCreated (x : IndexEntry) : List IndexEntry → List IndexEntry
  | [] => [x]
  | y :: ys => if strLeB x.created y.created then x :: y :: ys else y :: insertCreated x ys

/-- Python `sorted(entries, key=lambda x: x['created'])`: a stable sort by
plain string comparison of the `created` field. -/
def sortByCreated (l : List IndexEntry) : List IndexEntry := l.foldr insertCreated []

/-- The full line list of `INDEX.md` produced by `generate_index`; the
generation date (`datetime.now`) is passed in as `today`. -/
def generate_index (today : String) (docs : List (String × List String)) : List String :=
  let entries := docs.map indexEntryOf
  let act := entries.filter (fun e => e.status = "active")
  let dep := entries.filter (fun e => e.status = "deprecated")
  let arc := entries.filter (fun e => e.status = "archived")
  let total := docs.length
  let nAct := act.length
  let nDep := dep.length
  let nArc := arc.length
  ["# Spec Index", "", "Last updated: " ++ today, "",
   "Total: " ++ toString total ++ " specs (Active: " ++ toString nAct
     ++ ", Deprecated: " ++ toString nDep ++ ", Archived: " ++ toString nArc ++ ")", "",
   "## Active Changes", "",
   "| Change | Type | Spec | Domain | Issue | Since |",
   "|--------|------|------|--------|-------|-------|"]
  ++ (if act.isEmpty then ["| *No active changes yet* | | | | | |"]
      else (sortByCreated act).map indexRow)
  ++ ["", "## Deprecated", ""]
  ++ (if dep.isEmpty then ["*None*"]
      else ["| Change | Type | Spec | Domain | Issue | Deprecated |",
            "|--------|------|------|--------|-------|------------|"]
           ++ (sortByCreated dep).map indexRow)
  ++ ["", "## Archived", ""]
  ++ (if arc.isEmpty then ["*None*"]
      else ["| Change | Type | Spec | Domain | Issue | Archived |",
            "|--------|------|------|--------|-------|----------|"]
           ++ (sortByCreated arc).map indexRow)

end GenerateIndex

namespace GenerateSnapshot

/-- The snapshot version of `parse_frontmatter`, identical to the index one:
an empty mapping when the header block is absent. -/
def parse_frontmatter (doc : List String) : Dict :=
  match fmCore doc with
  | none => []
  | some block => fmOfLines block

/-- Frontmatter removal of `extract_overview`
(`re.sub(r'^---\s*\n.*?\n---\s*\n', '', content)`): here the closing line
must be the delimiter with only whitespace after it (because of the trailing
`\s*\n`), and it is searched strictly after the line following the opener.
When the pattern does not match, the document is left unchanged. -/
def removeFrontmatter (doc : List String) : List String :=
  match doc with
  | [] => []
  | l0 :: rest =>
    if delimLine l0 then
      match (rest.drop 1).findIdx? delimLine with
      | some j => rest.drop (j + 2)
      | none => l0 :: rest
    else l0 :: rest

/-- A line on which `re.search(r'## Overview\s*\n', ...)` fires: the substring
`## Overview` occurs followed only by whitespace up to the end of the line.
Equivalently, the right-stripped line ends with `## Overview`.  Note that this
is a substring match, not a whole-line match: a `### Overview` line also
fires. -/
def overviewTrigger (l : String) : Bool :=
  endsWithCl ("## Overview".data) (stripRCl l.data)

/-- A line starting with `##`, where the lazy group of the overview regex
stops (lookahead `\n##`). -/
def hhStart (l : String) : Bool := startsWithCl ("##".data) l.data

/-- Scan for the first trigger line; returns the lines after it. -/
def findOverview : List String → Option (List String)
  | [] => none
  | l :: ls => if overviewTrigger l then some ls else findOverview ls

/-- The group captured after the trigger: `\s*` absorbs whitespace-only lines
(so the group starts at the first non-blank line, which is included
unconditionally), and the group then extends up to, not including, the next
line starting with `##`, or the end of the document. -/
def overviewGroup (ls : List String) : List String :=
  match ls.dropWhile (fun l => wsOnly l) with
  | [] => []
  | g :: gs => g :: gs.takeWhile (fun l => !(hhStart l))

/-- `extract_overview`: strip frontmatter, search the overview trigger, return
the captured group stripped of surrounding whitespace; empty when there is no
trigger. -/
def extract_overview (doc : List String) : String :=
  match findOverview (removeFrontmatter doc) with
  | none => ""
  | some ls => pyStrip (joinLines (overviewGroup ls))

/-- The filter of `generate_snapshot`: `fm.get('status') == 'active'`, a
strict equality with no default fill. -/
def snapshotKeeps (doc : List String) : Bool :=
  dictGet (parse_frontmatter doc) "status" == some "active"

/-- One kept spec record of the snapshot. -/
structure SnapEntry where
  title : String
  path : String
  domain : String
  issue : String
  overview : String
  content : List String
deriving DecidableEq, Repr

/-- Build the snapshot record of one spec file. -/
def snapEntryOf (p : String × List String) : SnapEntry :=
  let fm := parse_frontmatter p.2
  ⟨(dictGet fm "title").getD (pyStem p.1),
   p.1,
   dictGetD fm "domain" "Unknown",
   dictGetD fm "issue" "",
   extract_overview p.2,
   p.2⟩

/-- The list of spec records kept by `generate_snapshot` (files whose status
is exactly `active`), in input order. -/
def snapshot_specs (docs : List (String × List String)) : List SnapEntry :=
  (docs.filter (fun p => snapshotKeeps p.2)).map snapEntryOf

end GenerateSnapshot

/-- Filesystem mutations performed by the scaffolders, as an action trace:
directory creations and file writes, with paths relative to the target
directory. -/
inductive FsAction where
  | mkdirAct (path : String)
  | writeAct (path : String)
deriving DecidableEq, Repr

/-- The specification directories both scaffolder variants always create. -/
def specs_dirs : List String :=
  ["specs", "specs/domain", "specs/domain/definitions", "specs/domain/use-cases",
   "specs/architecture", "specs/changes", "specs/external"]

/-- The configuration component directories both variants always create. -/
def config_dirs : List String :=
  ["components/config", "components/config/schemas"]

/-- The testing component directories (identical in both variants). -/
def testing_dirs : List String :=
  ["components/testing/tests/integration", "components/testing/tests/component",
   "components/testing/tests/e2e", "components/testing/testsuites"]

/-- The on-disk JSON scaffolder configuration, with every key optional so that
missing-key configurations are representable.  `components` is the ordered
component token list. -/
structure RawConfig where
  project_name : Option String
  project_description : Option String
  primary_domain : Option String
  target_dir : Option String
  components : Option (List String)
  template_dir : Option String
  skills_dir : Option String
deriving DecidableEq, Repr

/-- Python `key in config` on the configuration record. -/
def hasKey (c : RawConfig) (k : String) : Bool :=
  if k = "project_name" then c.project_name.isSome
  else if k = "project_description" then c.project_description.isSome
  else if k = "primary_domain" then c.primary_domain.isSome
  else if k = "target_dir" then c.target_dir.isSome
  else if k = "components" then c.components.isSome
  else if k = "template_dir" then c.template_dir.isSome
  else if k = "skills_dir" then c.skills_dir.isSome
  else false

/-- Parent directory of a path string, modelling `Path(p).parent`: drop the
last slash-separated component. -/
def parentDir (p : String) : String :=
  let r := p.data.reverse.dropWhile (fun c => !(c == '/'))
  String.mk (r.drop 1).reverse

/-- The fixed continuous-integration workflow text written by both scaffolder
variants, as lines.  It is a constant: no component directory is interpolated
into it. -/
def ciContentLines : List String :=
  ["name: CI", "",
   "on:", "  push:", "    branches: [main]", "  pull_request:", "    branches: [main]", "",
   "jobs:", "  build:", "    runs-on: ubuntu-latest", "",
   "    steps:", "      - uses: actions/checkout@v4", "",
   "      - name: Setup Node.js", "        uses: actions/setup-node@v4",
   "        with:", "          node-version: \x2720\x27", "          cache: \x27npm\x27", "",
   "      - name: Install dependencies", "        run: npm install --workspaces", "",
   "      - name: Type check", "        run: npm run typecheck", "",
   "      - name: Lint", "        run: npm run lint", "",
   "      - name: Test", "        run: npm run test", "",
   "      - name: Build", "        run: npm run build"]

namespace Scaffold

/-- Required configuration keys of the `scaffold.py` variant. -/
def required : List String := ["project_name", "target_dir", "components", "template_dir"]

/-- Server component directories of `scaffold.py` (only for the literal token
`server`; this variant has no named-component parsing). -/
def server_dirs : List String :=
  ["components/server/src/app", "components/server/src/config",
   "components/server/src/controller/http_handlers",
   "components/server/src/model/definitions", "components/server/src/model/use-cases",
   "components/server/src/dal", "components/server/src/telemetry"]

/-- Webapp component directories of `scaffold.py`. -/
def webapp_dirs : List String :=
  ["components/webapp/src/pages", "components/webapp/src/components",
   "components/webapp/src/viewmodels", "components/webapp/src/models",
   "components/webapp/src/services", "components/webapp/src/stores",
   "components/webapp/src/types", "components/webapp/src/utils"]

/-- The directories created by `scaffold_project` of `scaffold.py`, in
creation order; component membership is by exact token equality
(`"server" in set(components)`). -/
def created_dirs (components : List String) : List String :=
  specs_dirs ++ config_dirs
  ++ (if components.contains "contract" then ["components/contract"] else [])
  ++ (if components.contains "server" then server_dirs else [])
  ++ (if components.contains "webapp" then webapp_dirs else [])
  ++ (if components.contains "helm" then ["components/helm"] else [])
  ++ (if components.contains "testing" then testing_dirs else [])
  ++ (if components.contains "cicd" then [".github/workflows"] else [])

/-- The CI files written by `scaffold.py`: the fixed workflow, only when the
literal token `cicd` is among the components. -/
def ci_files (components : List String) : List (String × List String) :=
  if components.contains "cicd" then [(".github/workflows/ci.yaml", ciContentLines)] else []

/-- The unconditional filesystem mutations of `scaffold_project`, in order:
target directory, root ignore file, the directory tree, and the generated
documents.  Template-file copies (which depend on which template files exist
on disk, not modelled here) happen between these actions and add to them. -/
def scaffoldActions (components : List String) : List FsAction :=
  FsAction.mkdirAct "." :: FsAction.writeAct ".gitignore" ::
  (((created_dirs components).map FsAction.mkdirAct)
   ++ [FsAction.writeAct "specs/architecture/overview.md"]
   ++ (if components.contains "contract" then [FsAction.writeAct "components/contract/.gitignore"] else [])
   ++ (if components.contains "cicd" then [FsAction.writeAct ".github/workflows/ci.yaml"] else []))

/-- The `main` entry of `scaffold.py` after loading the configuration: check
the required keys in order and stop with exit code 1 and no filesystem
actions when one is missing; otherwise run the scaffolding and exit 0. -/
def mainRun (cfg : RawConfig) : List FsAction × Nat :=
  match required.find? (fun f => !(hasKey cfg f)) with
  | some _ => ([], 1)
  | none => (scaffoldActions (cfg.components.getD []), 0)

end Scaffold

namespace Scaffolding

/-- A parsed component token of `scaffolding.py`: `type` or `type:name`. -/
structure ParsedComponent where
  component_type : String
  name : Option String
  dir_name : String
deriving DecidableEq, Repr

/-- `parse_component`: split the token at the first colon; a named token
`type:name` gets directory name `type-name`. -/
def parse_component (c : String) : ParsedComponent :=
  match splitFirstColon c.data with
  | some (t, n) =>
    ⟨String.mk t, some (String.mk n), String.mk t ++ "-" ++ String.mk n⟩
  | none => ⟨c, none, c⟩

/-- `has_component_type`: some component parses to the given type. -/
def hasType (components : List String) (t : String) : Bool :=
  components.any (fun c => (parse_component c).component_type == t)

/-- `get_components_by_type`: all parsed components of the given type, in
input order. -/
def byType (components : List String) (t : String) : List ParsedComponent :=
  (components.filter (fun c => (parse_component c).component_type == t)).map parse_component

/-- Required configuration keys of the `scaffolding.py` variant (checked after
the legacy `template_dir` fallback). -/
def required : List String := ["project_name", "target_dir", "components", "skills_dir"]

/-- Legacy support of `scaffolding.py`: when `skills_dir` is absent but
`template_dir` is present, derive `skills_dir` as the sibling `skills`
directory of the template directory. -/
def applyLegacy (c : RawConfig) : RawConfig :=
  match c.skills_dir, c.template_dir with
  | none, some td =>
    ⟨c.project_name, c.project_description, c.primary_domain, c.target_dir,
     c.components, c.template_dir, some (parentDir td ++ "/skills")⟩
  | _, _ => c

/-- Server component subdirectories of `scaffolding.py` for one instance
directory name (this variant uses `src/operator` and has no telemetry
directory). -/
def server_subdirs (dn : String) : List String :=
  ["components/" ++ dn ++ "/src/operator",
   "components/" ++ dn ++ "/src/config",
   "components/" ++ dn ++ "/src/controller/http_handlers",
   "components/" ++ dn ++ "/src/model/definitions",
   "components/" ++ dn ++ "/src/model/use-cases",
   "components/" ++ dn ++ "/src/dal"]

/-- Webapp component subdirectories of `scaffolding.py` for one instance
directory name. -/
def webapp_subdirs (dn : String) : List String :=
  ["components/" ++ dn ++ "/src/pages",
   "components/" ++ dn ++ "/src/components",
   "components/" ++ dn ++ "/src/viewmodels",
   "components/" ++ dn ++ "/src/models",
   "components/" ++ dn ++ "/src/services",
   "components/" ++ dn ++ "/src/stores",
   "components/" ++ dn ++ "/src/types",
   "components/" ++ dn ++ "/src/utils"]

/-- The directories created by `scaffold_project` of `scaffolding.py`, in
creation order; server and webapp components support multiple named
instances, one subtree per instance. -/
def created_dirs (components : List String) : List String :=
  specs_dirs ++ config_dirs
  ++ (if hasType components "contract" then ["components/contract"] else [])
  ++ List.flatten ((byType components "server").map (fun pc => server_subdirs pc.dir_name))
  ++ List.flatten ((byType components "webapp").map (fun pc => webapp_subdirs pc.dir_name))
  ++ (if hasType components "helm" then ["components/helm"] else [])
  ++ (if hasType components "testing" then testing_dirs else [])
  ++ (if hasType components "cicd" then [".github/workflows"] else [])

/-- The workspace list computed for CI inside `scaffold_project` of
`scaffolding.py`.  The source computes this list and then never uses it: the
written workflow text is the fixed `ciContentLines`. -/
def workspaces (components : List String) : List String :=
  (if hasType components "contract" then ["components/contract"] else [])
  ++ (byType components "server").map (fun pc => "components/" ++ pc.dir_name)
  ++ (byType components "webapp").map (fun pc => "components/" ++ pc.dir_name)

/-- The CI files written by `scaffolding.py`: the fixed workflow, only when a
component of type `cicd` is requested. -/
def ci_files (components : List String) : List (String × List String) :=
  if hasType components "cicd" then [(".github/workflows/ci.yaml", ciContentLines)] else []

/-- The unconditional filesystem mutations of `scaffold_project` of
`scaffolding.py`, in order (template-file copies, which depend on the on-disk
template tree, happen between these actions and add to them). -/
def scaffoldActions (components : List String) : List FsAction :=
  FsAction.mkdirAct "." :: FsAction.writeAct ".gitignore" ::
  (((created_dirs components).map FsAction.mkdirAct)
   ++ [FsAction.writeAct "specs/architecture/overview.md"]
   ++ (if hasType components "contract" then [FsAction.writeAct "components/contract/.gitignore"] else [])
   ++ (if hasType components "cicd" then [FsAction.writeAct ".github/workflows/ci.yaml"] else []))

/-- The `main` entry of `scaffolding.py` after loading the configuration:
apply the legacy `template_dir` fallback, check the required keys in order,
stop with exit code 1 and no filesystem actions when one is missing, else
scaffold and exit 0. -/
def mainRun (cfg : RawConfig) : List FsAction × Nat :=
  let c := applyLegacy cfg
  match required.find? (fun f => !(hasKey c f)) with
  | some _ => ([], 1)
  | none => (scaffoldActions (c.components.getD []), 0)

end Scaffolding

/-- Left-biased choice on options. -/
def optOr : Option String → Option String → Option String
  | some a, _ => some a
  | none, b => b

/-- The value of the LAST header line carrying the given key (specification
reading of duplicate-key handling): scan gives priority to later lines. -/
def lastColonVal : List String → String → Option String
  | [], _ => none
  | l :: ls, k =>
    optOr (lastColonVal ls k)
      (match lineEntry l with
       | some kv => if kv.1 = k then some kv.2 else none
       | none => none)

/-- Claim C1 concrete file: header with every required field except `issue`,
and status value `bogus`. -/
def c1doc : List String :=
  ["---", "title: T", "status: bogus", "domain: D",
   "created: 2024-01-01", "updated: 2024-02-01", "---", "body"]

theorem dictGet_dictInsert (d : Dict) (k v k2 : String) :
    dictGet (dictInsert d k v) k2 = if k = k2 then some v else dictGet d k2 := by
  induction d with
  | nil => simp [dictInsert, dictGet]
  | cons h t ih =>
    obtain ⟨k1, v1⟩ := h
    by_cases h1 : k1 = k
    · subst h1
      simp [dictInsert, dictGet]
      split <;> simp_all [dictGet]
    · simp [dictInsert, dictGet, h1]
      by_cases h2 : k1 = k2
      · subst h2
        have : ¬ (k = k1) := fun hh => h1 hh.symm
        simp [dictGet, this]
      · simp [dictGet, h2, ih]

theorem dictGet_fmStep (d : Dict) (l : String) (k : String) :
    dictGet (fmStep d l) k =
      optOr (match lineEntry l with
             | some kv => if kv.1 = k then some kv.2 else none
             | none => none)
            (dictGet d k) := by
  unfold fmStep
  cases h : lineEntry l with
  | none => simp [optOr]
  | some kv =>
    obtain ⟨k1, v1⟩ := kv
    simp [dictGet_dictInsert]
    by_cases hk : k1 = k <;> simp [hk, optOr]

theorem optOr_assoc (a b c : Option String) : optOr (optOr a b) c = optOr a (optOr b c) := by
  cases a <;> cases b <;> simp [optOr]

theorem dictGet_foldl (ls : List String) (d : Dict) (k : String) :
    dictGet (ls.foldl fmStep d) k = optOr (lastColonVal ls k) (dictGet d k) := by
  induction ls generalizing d with
  | nil => simp [lastColonVal, optOr]
  | cons l ls ih =>
    simp only [List.foldl_cons, ih, lastColonVal, dictGet_fmStep, optOr_assoc]

theorem dictGet_fmOfLines (ls : List String) (k : String) :
    dictGet (fmOfLines ls) k = lastColonVal ls k := by
  have h := dictGet_foldl ls [] k
  rw [fmOfLines, h]
  cases hv : lastColonVal ls k <;> simp [optOr, dictGet]

theorem findOverview_append (pre xs : List String)
    (h : ∀ l ∈ pre, GenerateSnapshot.overviewTrigger l = false) :
    GenerateSnapshot.findOverview (pre ++ xs) = GenerateSnapshot.findOverview xs := by
  induction pre with
  | nil => rfl
  | cons a t ih =>
    have ha := h a (by simp)
    simp only [List.cons_append, GenerateSnapshot.findOverview, ha, Bool.false_eq_true,
      if_false]
    exact ih (fun l hl => h l (by simp [hl]))

theorem findOverview_none (ls : List String)
    (h : ∀ l ∈ ls, GenerateSnapshot.overviewTrigger l = false) :
    GenerateSnapshot.findOverview ls = none := by
  induction ls with
  | nil => rfl
  | cons a t ih =>
    have ha := h a (by simp)
    simp only [GenerateSnapshot.findOverview, ha, Bool.false_eq_true, if_false]
    exact ih (fun l hl => h l (by simp [hl]))

theorem takeWhileAll {α : Type} (p : α → Bool) (l : List α) (h : ∀ x ∈ l, p x = true) :
    l.takeWhile p = l := by
  induction l with
  | nil => rfl
  | cons a t ih =>
    have ha := h a (by simp)
    simp only [List.takeWhile_cons, ha, if_true]
    rw [ih (fun x hx => h x (by simp [hx]))]

theorem takeWhileStop {α : Type} (p : α → Bool) (xs : List α) (y : α) (ys : List α)
    (hxs : ∀ x ∈ xs, p x = true) (hy : p y = false) :
    (xs ++ y :: ys).takeWhile p = xs := by
  induction xs with
  | nil => simp [List.takeWhile_cons, hy]
  | cons a t ih =>
    have ha := hxs a (by simp)
    simp only [List.cons_append, List.takeWhile_cons, ha, if_true]
    rw [ih (fun x hx => hxs x (by simp [hx]))]

theorem findSome_of_mem (l : List String) (p : String → Bool) (f : String)
    (hf : f ∈ l) (hpf : p f = true) : ∃ g, l.find? p = some g := by
  cases h : l.find? p with
  | some g => exact ⟨g, rfl⟩
  | none =>
    have := List.find?_eq_none.mp h f hf
    simp [hpf] at this

/-- Claim C1: once a header block is present, the validator accumulates every
applicable error (each missing or empty required field, an invalid status, a
placeholder issue all contribute their error to the result list), and on a
file whose header has all required fields except `issue` with status `bogus`
it reports exactly the two errors. -/
theorem c1_error_accumulation :
    (∀ (path : String) (fm : Dict) (f : String), f ∈ ValidateSpec.REQUIRED_FIELDS →
       ValidateSpec.fieldAbsentOrEmpty fm f = true →
       SpecError.missingField f path ∈ ValidateSpec.validate_fields path fm)
    ∧ (∀ (path : String) (fm : Dict) (s : String), dictGet fm "status" = some s →
       ValidateSpec.VALID_STATUSES.contains s = false →
       SpecError.invalidStatus s path ∈ ValidateSpec.validate_fields path fm)
    ∧ (∀ (path : String) (fm : Dict) (i : String), dictGet fm "issue" = some i →
       ValidateSpec.PLACEHOLDER_ISSUES.contains i = true →
       SpecError.placeholderIssue path ∈ ValidateSpec.validate_fields path fm)
    ∧ ValidateSpec.validate_spec "spec.md" (some c1doc)
      = [SpecError.missingField "issue" "spec.md",
         SpecError.invalidStatus "bogus" "spec.md"] := by
  refine ⟨?_, ?_, ?_, by decide⟩
  · intro path fm f hf hp
    simp only [ValidateSpec.validate_fields, ValidateSpec.missingFieldErrors, List.mem_append,
      List.mem_map, List.mem_filter]
    exact Or.inl (Or.inl ⟨f, ⟨hf, hp⟩, rfl⟩)
  · intro path fm s hs hc
    simp only [ValidateSpec.validate_fields, ValidateSpec.statusErrors, hs, hc, List.mem_append]
    simp
  · intro path fm i hi hc
    simp only [ValidateSpec.validate_fields, ValidateSpec.issueErrors, hi, hc, List.mem_append]
    simp

/-- Witness for C1 at concrete inputs. -/
theorem c1_error_accumulation_witness :
    SpecError.missingField "title" "p.md" ∈ ValidateSpec.validate_fields "p.md" []
    ∧ SpecError.invalidStatus "bogus" "p.md"
        ∈ ValidateSpec.validate_fields "p.md" [("status", "bogus")]
    ∧ SpecError.placeholderIssue "p.md"
        ∈ ValidateSpec.validate_fields "p.md" [("issue", "TODO")] :=
  ⟨c1_error_accumulation.1 "p.md" [] "title" (by decide) (by decide),
   c1_error_accumulation.2.1 "p.md" [("status", "bogus")] "bogus" (by decide) (by decide),
   c1_error_accumulation.2.2.1 "p.md" [("issue", "TODO")] "TODO" (by decide) (by decide)⟩

/-- Claim C10: for a file whose content has no header block the validator
returns exactly the single missing-frontmatter error (no field, status or
issue errors are accumulated), and a nonexistent path yields exactly the
single file-not-found error. -/
theorem c10_single_error_without_header :
    ∀ (path : String) (doc : List String),
      ValidateSpec.parse_frontmatter doc = none →
      ValidateSpec.validate_spec path (some doc) = [SpecError.missingFrontmatter path]
      ∧ ValidateSpec.validate_spec path none = [SpecError.fileNotFound path] := by
  intro path doc h
  exact ⟨by simp [ValidateSpec.validate_spec, h], rfl⟩

/-- Witness for C10 at a concrete delimiter-free file. -/
theorem c10_single_error_without_header_witness :
    ValidateSpec.validate_spec "spec.md" (some ["hello"])
      = [SpecError.missingFrontmatter "spec.md"]
    ∧ ValidateSpec.validate_spec "spec.md" none = [SpecError.fileNotFound "spec.md"] :=
  c10_single_error_without_header "spec.md" ["hello"] (by decide)

/-- Claim C6 counterexample: the validator parser does not return an empty
mapping on a document without the delimiter; it returns the distinguished
`none`, so the claim that every frontmatter parser of the codebase returns an
empty mapping is false. -/
theorem c6_counterexample :
    ValidateSpec.parse_frontmatter ["hello"] = none
    ∧ ¬ (ValidateSpec.parse_frontmatter ["hello"] = some []) := by decide

/-- Claim C6 amended: on a document without a header block, the index and
snapshot parsers return an empty mapping (no header indistinguishable from an
empty header), while the validator parser returns the distinguished `none`,
which `validate_spec` reports as a missing-frontmatter error. -/
theorem c6_amended_parsers_no_delimiter :
    ∀ doc : List String, fmCore doc = none →
      GenerateIndex.parse_frontmatter doc = []
      ∧ GenerateSnapshot.parse_frontmatter doc = []
      ∧ ValidateSpec.parse_frontmatter doc = none
      ∧ ValidateSpec.validate_spec "f.md" (some doc)
          = [SpecError.missingFrontmatter "f.md"] := by
  intro doc h
  refine ⟨?_, ?_, ?_, ?_⟩
  · simp [GenerateIndex.parse_frontmatter, h]
  · simp [GenerateSnapshot.parse_frontmatter, h]
  · simp [ValidateSpec.parse_frontmatter, h]
  · simp [ValidateSpec.validate_spec, ValidateSpec.parse_frontmatter, h]

/-- Witness for the amended C6 at a concrete delimiter-free document. -/
theorem c6_amended_parsers_no_delimiter_witness :
    GenerateIndex.parse_frontmatter ["hello"] = []
    ∧ GenerateSnapshot.parse_frontmatter ["hello"] = []
    ∧ ValidateSpec.parse_frontmatter ["hello"] = none
    ∧ ValidateSpec.validate_spec "f.md" (some ["hello"])
        = [SpecError.missingFrontmatter "f.md"] :=
  c6_amended_parsers_no_delimiter ["hello"] (by decide)

/-- Claim C7: for any header block, the parsed mapping binds each key to the
value of its last occurrence (the general statement is over the block lines;
the concrete document shows the full parser on a duplicate key). -/
theorem c7_duplicate_key_last_wins :
    (∀ (ls : List String) (k : String), dictGet (fmOfLines ls) k = lastColonVal ls k)
    ∧ GenerateIndex.parse_frontmatter ["---", "a: 1", "a: 2", "---", "body"] = [("a", "2")] :=
  ⟨dictGet_fmOfLines, by decide⟩

/-- Claim C4: the snapshot keeps a file exactly when its parsed status is the
string `active` (statuses `Active` or a missing status are excluded, with no
default fill), while the index builder defaults a missing status to active. -/
theorem c4_snapshot_strict_index_default :
    (∀ doc : List String,
       GenerateSnapshot.snapshotKeeps doc = true ↔
         dictGet (GenerateSnapshot.parse_frontmatter doc) "status" = some "active")
    ∧ GenerateSnapshot.snapshotKeeps ["---", "status: Active", "---", "x"] = false
    ∧ GenerateSnapshot.snapshotKeeps ["---", "title: T", "---", "x"] = false
    ∧ GenerateSnapshot.snapshot_specs
        [("a.md", ["---", "status: Active", "---", "x"]),
         ("b.md", ["---", "title: T", "---", "x"]),
         ("c.md", ["---", "status: active", "title: A", "---", "## Overview", "hi"])]
        = [⟨"A", "c.md", "Unknown", "", "hi",
            ["---", "status: active", "title: A", "---", "## Overview", "hi"]⟩]
    ∧ GenerateIndex.statusOf ["---", "title: T", "---", "x"] = "active" := by
  refine ⟨?_, by decide, by decide, by decide, by decide⟩
  intro doc
  simp [GenerateSnapshot.snapshotKeeps]

/-- Claim C5: on zero input specs the generated index reports a total of 0 and
renders exactly three empty-state placeholder rows, one for each status
bucket: the active table placeholder row once and the `*None*` placeholder
once for deprecated and once for archived. -/
theorem c5_empty_index :
    (∀ today : String, GenerateIndex.generate_index today [] =
      ["# Spec Index", "", "Last updated: " ++ today, "",
       "Total: 0 specs (Active: 0, Deprecated: 0, Archived: 0)", "",
       "## Active Changes", "",
       "| Change | Type | Spec | Domain | Issue | Since |",
       "|--------|------|------|--------|-------|-------|",
       "| *No active changes yet* | | | | | |",
       "", "## Deprecated", "", "*None*", "", "## Archived", "", "*None*"])
    ∧ (GenerateIndex.generate_index "2024-01-01" []).count
        "| *No active changes yet* | | | | | |" = 1
    ∧ (GenerateIndex.generate_index "2024-01-01" []).count "*None*" = 2
    ∧ "Total: 0 specs (Active: 0, Deprecated: 0, Archived: 0)"
        ∈ GenerateIndex.generate_index "2024-01-01" [] :=
  ⟨fun _ => rfl, by decide, by decide, by decide⟩

/-- Claim C2 counterexample: the `scaffold.py` variant matches component
tokens by exact equality, so with components `server:api` and `server:billing`
it creates only the always-present specs and config directories and neither
`components/server-api` nor `components/server-billing` tree; the claim that
each of the two variants creates both trees is false. -/
theorem c2_counterexample :
    Scaffold.created_dirs ["server:api", "server:billing"] = specs_dirs ++ config_dirs
    ∧ ¬ ("components/server-api/src/dal"
        ∈ Scaffold.created_dirs ["server:api", "server:billing"])
    ∧ ¬ ("components/server-billing/src/dal"
        ∈ Scaffold.created_dirs ["server:api", "server:billing"]) := by
  refine ⟨by decide, by decide, by decide⟩

/-- Claim C2 amended: the `scaffolding.py` variant creates, for components
`server:api` and `server:billing`, exactly the always-present directories
followed by the full fixed server subdirectory set under
`components/server-api` and under `components/server-billing`; the two trees
are independent (each lies under its own directory name). -/
theorem c2_amended_named_server_trees :
    Scaffolding.created_dirs ["server:api", "server:billing"]
      = specs_dirs ++ config_dirs
        ++ Scaffolding.server_subdirs "server-api"
        ++ Scaffolding.server_subdirs "server-billing"
    ∧ (Scaffolding.server_subdirs "server-api").all
        (fun d => startsWithCl ("components/server-api/".data) d.data) = true
    ∧ (Scaffolding.server_subdirs "server-billing").all
        (fun d => startsWithCl ("components/server-billing/".data) d.data) = true := by
  decide

/-- Claim C3 counterexample: with components `server:api` and `cicd` the
`scaffolding.py` variant writes the CI workflow, computes the workspace list
`components/server-api`, and yet the written workflow text never mentions
`components/server-api`; the claim that the workflow names every selected
component directory as a build target is false. -/
theorem c3_counterexample :
    Scaffolding.ci_files ["server:api", "cicd"]
      = [(".github/workflows/ci.yaml", ciContentLines)]
    ∧ Scaffolding.workspaces ["server:api", "cicd"] = ["components/server-api"]
    ∧ containsSub ("components/server-api".data) (joinLines ciContentLines).data = false := by
  refine ⟨by decide, by decide, by decide⟩

/-- Claim C3 amended: when a CI component is requested, both variants write
one fixed continuous-integration workflow document, identical for every
component selection; the document drives the build through npm workspaces
commands and does not name any component directory (no occurrence of
`components/` at all). -/
theorem c3_amended_fixed_ci_workflow :
    (∀ comps : List String, Scaffolding.hasType comps "cicd" = true →
       Scaffolding.ci_files comps = [(".github/workflows/ci.yaml", ciContentLines)])
    ∧ (∀ comps : List String, comps.contains "cicd" = true →
       Scaffold.ci_files comps = [(".github/workflows/ci.yaml", ciContentLines)])
    ∧ containsSub ("components/".data) (joinLines ciContentLines).data = false := by
  refine ⟨?_, ?_, by decide⟩
  · intro comps h
    simp only [Scaffolding.ci_files, h]
    rfl
  · intro comps h
    simp only [Scaffold.ci_files, h]
    rfl

/-- Witness for the amended C3 at the concrete component list `[cicd]`. -/
theorem c3_amended_fixed_ci_workflow_witness :
    Scaffolding.ci_files ["cicd"] = [(".github/workflows/ci.yaml", ciContentLines)]
    ∧ Scaffold.ci_files ["cicd"] = [(".github/workflows/ci.yaml", ciContentLines)] :=
  ⟨c3_amended_fixed_ci_workflow.1 ["cicd"] (by decide),
   c3_amended_fixed_ci_workflow.2.1 ["cicd"] (by decide)⟩

/-- Claim C9: for both scaffolder variants, a configuration missing a required
key (for `scaffolding.py`, after its legacy `template_dir` fallback) makes the
entry point stop with exit code 1 and an empty filesystem action trace: no
directory or file is created. -/
theorem c9_missing_key_no_mutation :
    (∀ cfg : RawConfig, (∃ f ∈ Scaffold.required, hasKey cfg f = false) →
       Scaffold.mainRun cfg = ([], 1))
    ∧ (∀ cfg : RawConfig,
       (∃ f ∈ Scaffolding.required, hasKey (Scaffolding.applyLegacy cfg) f = false) →
       Scaffolding.mainRun cfg = ([], 1)) := by
  constructor
  · rintro cfg ⟨f, hf, hk⟩
    obtain ⟨g, hg⟩ := findSome_of_mem Scaffold.required (fun f => !(hasKey cfg f)) f hf
      (by simp [hk])
    simp [Scaffold.mainRun, hg]
  · rintro cfg ⟨f, hf, hk⟩
    obtain ⟨g, hg⟩ := findSome_of_mem Scaffolding.required
      (fun f => !(hasKey (Scaffolding.applyLegacy cfg) f)) f hf (by simp [hk])
    simp [Scaffolding.mainRun, hg]

/-- Witness for C9 at the empty configuration. -/
theorem c9_missing_key_no_mutation_witness :
    Scaffold.mainRun ⟨none, none, none, none, none, none, none⟩ = ([], 1)
    ∧ Scaffolding.mainRun ⟨none, none, none, none, none, none, none⟩ = ([], 1) :=
  ⟨c9_missing_key_no_mutation.1 ⟨none, none, none, none, none, none, none⟩
     ⟨"project_name", by decide, by decide⟩,
   c9_missing_key_no_mutation.2 ⟨none, none, none, none, none, none, none⟩
     ⟨"project_name", by decide, by decide⟩⟩

/-- Claim C8 counterexample: the document `### Overview` / `stuff` contains no
line heading exactly `## Overview`, yet overview extraction returns `stuff`
rather than the empty string, because the regex matches `## Overview` as a
substring of the `### Overview` line. -/
theorem c8_counterexample :
    (["### Overview", "stuff"].contains "## Overview") = false
    ∧ GenerateSnapshot.extract_overview ["### Overview", "stuff"] = "stuff"
    ∧ GenerateSnapshot.extract_overview ["### Overview", "stuff"] ≠ "" := by
  refine ⟨by decide, by decide, by decide⟩

/-- Claim C8 amended: overview extraction fires on the first line whose
right-stripped text ends with `## Overview` (a substring match, so for
instance a `### Overview` line also triggers); with no such line the overview
is empty.  After the trigger, for a section starting with a non-blank line
and containing no line starting with `##`, the extraction returns exactly
that section, joined and trimmed, whether it is closed by a line starting
with `##` or by the end of the document. -/
theorem c8_amended_overview_extraction :
    (∀ doc : List String,
       (∀ l ∈ GenerateSnapshot.removeFrontmatter doc,
          GenerateSnapshot.overviewTrigger l = false) →
       GenerateSnapshot.extract_overview doc = "")
    ∧ (∀ (pre m post : List String) (g0 hh : String),
       (∀ l ∈ pre, GenerateSnapshot.overviewTrigger l = false) →
       GenerateSnapshot.removeFrontmatter (pre ++ "## Overview" :: g0 :: (m ++ hh :: post))
         = pre ++ "## Overview" :: g0 :: (m ++ hh :: post) →
       wsOnly g0 = false →
       (∀ l ∈ g0 :: m, GenerateSnapshot.hhStart l = false) →
       GenerateSnapshot.hhStart hh = true →
       GenerateSnapshot.extract_overview (pre ++ "## Overview" :: g0 :: (m ++ hh :: post))
         = pyStrip (joinLines (g0 :: m)))
    ∧ (∀ (pre m : List String) (g0 : String),
       (∀ l ∈ pre, GenerateSnapshot.overviewTrigger l = false) →
       GenerateSnapshot.removeFrontmatter (pre ++ "## Overview" :: g0 :: m)
         = pre ++ "## Overview" :: g0 :: m →
       wsOnly g0 = false →
       (∀ l ∈ g0 :: m, GenerateSnapshot.hhStart l = false) →
       GenerateSnapshot.extract_overview (pre ++ "## Overview" :: g0 :: m)
         = pyStrip (joinLines (g0 :: m))) := by
  refine ⟨?_, ?_, ?_⟩
  · intro doc h
    unfold GenerateSnapshot.extract_overview
    rw [findOverview_none _ h]
  · intro pre m post g0 hh h1 h2 h3 h4 h5
    unfold GenerateSnapshot.extract_overview
    rw [h2, findOverview_append pre _ h1]
    have ht : GenerateSnapshot.overviewTrigger "## Overview" = true := by decide
    simp only [GenerateSnapshot.findOverview, ht, if_true]
    unfold GenerateSnapshot.overviewGroup
    simp only [List.dropWhile_cons, h3, Bool.false_eq_true, if_false]
    rw [takeWhileStop (fun l => !(GenerateSnapshot.hhStart l)) m hh post
      (fun x hx => by simp [h4 x (List.mem_cons_of_mem _ hx)])
      (by simp [h5])]
  · intro pre m g0 h1 h2 h3 h4
    unfold GenerateSnapshot.extract_overview
    rw [h2, findOverview_append pre _ h1]
    have ht : GenerateSnapshot.overviewTrigger "## Overview" = true := by decide
    simp only [GenerateSnapshot.findOverview, ht, if_true]
    unfold GenerateSnapshot.overviewGroup
    simp only [List.dropWhile_cons, h3, Bool.false_eq_true, if_false]
    rw [takeWhileAll (fun l => !(GenerateSnapshot.hhStart l)) m
      (fun x hx => by simp [h4 x (List.mem_cons_of_mem _ hx)])]

/-- Witness for the amended C8 at concrete documents: a document without a
trigger line, a section closed by a following heading, and a section running
to the end of the document. -/
theorem c8_amended_overview_extraction_witness :
    GenerateSnapshot.extract_overview ["no heading here", "text"] = ""
    ∧ GenerateSnapshot.extract_overview ["intro", "## Overview", "text", "## Next", "tail"]
        = pyStrip (joinLines ["text"])
    ∧ GenerateSnapshot.extract_overview ["## Overview", "hi"]
        = pyStrip (joinLines ["hi"]) :=
  ⟨c8_amended_overview_extraction.1 ["no heading here", "text"] (by decide),
   c8_amended_overview_extraction.2.1 ["intro"] [] ["tail"] "text" "## Next"
     (by decide) (by decide) (by decide) (by decide) (by decide),
   c8_amended_overview_extraction.2.2 [] [] "hi"
     (by decide) (by decide) (by decide) (by decide)⟩
